import Mathlib

/-
  Verification of the mockingj schema and configuration data models
  (src/mockingj/models/schema.py and src/mockingj/models/config.py).

  The pydantic models are embedded shallowly: a construction input is a
  record of optional raw field values (a missing key and an explicit None
  are conflated, which matches how every validator in the source treats
  them), and construction is a function returning Except String Model that
  mirrors the validator pipeline: the mode=before model validator, the
  per-field constraints and field validators in declaration order, then
  the mode=after model validators.  Only success or failure of
  construction matters to the properties below, so error strings are
  representative one-liners rather than full pydantic messages.
-/

namespace MockingJ

/-- Python values as they occur in schema fields (None, bool, int, float,
str, list).  Floats are modelled as rationals; mapping values do not occur
in any schema construction exercised here and are left out, so the
isinstance check for dict is constantly false on modelled values. -/
inductive PyVal where
  | none : PyVal
  | bool : Bool → PyVal
  | int : Int → PyVal
  | float : Rat → PyVal
  | str : String → PyVal
  | list : List PyVal → PyVal

/-- Python str() of a float, exact for floats with integral value (the
only floats whose textual form the development evaluates). -/
def floatStr (q : Rat) : String :=
  if q.den = 1 then toString q.num ++ ".0"
  else toString q.num ++ "/" ++ toString q.den

mutual

/-- Python repr() of a value (strings are quoted). -/
def pyRepr : PyVal → String
  | PyVal.none => "None"
  | PyVal.bool true => "True"
  | PyVal.bool false => "False"
  | PyVal.int n => toString n
  | PyVal.float q => floatStr q
  | PyVal.str s => "\x27" ++ s ++ "\x27"
  | PyVal.list xs => "[" ++ pyReprList xs ++ "]"

/-- Comma-joined reprs of list elements. -/
def pyReprList : List PyVal → String
  | [] => ""
  | [x] => pyRepr x
  | x :: y :: xs => pyRepr x ++ ", " ++ pyReprList (y :: xs)
end

/-- Python str() of a value: like repr() except that a top-level string is
returned unquoted. -/
def pyStr : PyVal → String
  | PyVal.str s => s
  | v => pyRepr v

/-- Numeric view used by Python ==: bools and ints and floats compare as
numbers (True == 1, 1 == 1.0). -/
def pyNum : PyVal → Option Rat
  | PyVal.bool b => some (if b then 1 else 0)
  | PyVal.int n => some (n : Rat)
  | PyVal.float q => some q
  | _ => Option.none

mutual

/-- Python value equality (==). -/
def pyEq : PyVal → PyVal → Bool
  | PyVal.str a, PyVal.str b => a == b
  | PyVal.none, PyVal.none => true
  | PyVal.list xs, PyVal.list ys => pyEqList xs ys
  | a, b =>
    match pyNum a, pyNum b with
    | some x, some y => x == y
    | _, _ => false

/-- Elementwise Python equality of lists. -/
def pyEqList : List PyVal → List PyVal → Bool
  | [], [] => true
  | x :: xs, y :: ys => pyEq x y && pyEqList xs ys
  | _, _ => false
end

/-- Modelled from the spec: acceptance by re.compile (the Python re module
is outside this repository; the spec only requires that a pattern "must
compile as a regular expression").  The model checks the syntactic
well-formedness that separates the patterns exercised by the repository:
balanced groups, terminated character classes and no dangling backslash. -/
def reScan : List Char → Nat → Bool → Bool
  | [], depth, inClass => depth == 0 && !inClass
  | '\\' :: rest, depth, inClass =>
    match rest with
    | [] => false
    | _ :: rest2 => reScan rest2 depth inClass
  | '[' :: rest, depth, false => reScan rest depth true
  | ']' :: rest, depth, true => reScan rest depth false
  | '(' :: rest, depth, false => reScan rest (depth + 1) false
  | ')' :: rest, depth, false =>
    match depth with
    | 0 => false
    | d + 1 => reScan rest d false
  | _ :: rest, depth, inClass => reScan rest depth inClass

/-- Modelled from the spec: whether a pattern string compiles as a regular
expression. -/
def reCompileOk (p : String) : Bool := reScan p.toList 0 false

/-- Union type Union Bool Schema used by additionalProperties and
additionalItems. -/
inductive BoolOrSchema (S : Type) where
  | bool : Bool → BoolOrSchema S
  | schema : S → BoolOrSchema S

/-- A dependencies entry: Union of a list of property names and a Schema. -/
inductive DepEntry (S : Type) where
  | names : List String → DepEntry S
  | schema : S → DepEntry S

/-- The fields of the base pydantic Schema model
(mockingj.models.schema.Schema), parametric in the schema type used for
nested positions. -/
structure SchemaF (S : Type) where
  type : Option String := Option.none
  format : Option String := Option.none
  description : Option String := Option.none
  default : Option PyVal := Option.none
  title : Option String := Option.none
  «example» : Option PyVal := Option.none
  examples : Option (List PyVal) := Option.none
  nullable : Bool := false
  ref : Option String := Option.none
  enum : Option (List PyVal) := Option.none
  properties : Option (List (String × S)) := Option.none
  required : Option (List String) := Option.none
  additionalProperties : Option (BoolOrSchema S) := Option.none
  minProperties : Option Int := Option.none
  maxProperties : Option Int := Option.none
  patternProperties : Option (List (String × S)) := Option.none
  dependencies : Option (List (String × DepEntry S)) := Option.none
  minLength : Option Int := Option.none
  maxLength : Option Int := Option.none
  pattern : Option String := Option.none
  minimum : Option Rat := Option.none
  maximum : Option Rat := Option.none
  exclusiveMinimum : Bool := false
  exclusiveMaximum : Bool := false
  multipleOf : Option Rat := Option.none

/-- A constructed base Schema instance: the fields, closed recursively so
that property maps and dependency entries hold schemas. -/
inductive Schema where
  | mk : SchemaF Schema → Schema

/-- The field record of a constructed schema. -/
def Schema.fields : Schema → SchemaF Schema
  | Schema.mk f => f

def Schema.type (s : Schema) : Option String := s.fields.type

def Schema.format (s : Schema) : Option String := s.fields.format

def Schema.default (s : Schema) : Option PyVal := s.fields.default

def Schema.«example» (s : Schema) : Option PyVal := s.fields.«example»

def Schema.examples (s : Schema) : Option (List PyVal) := s.fields.examples

def Schema.ref (s : Schema) : Option String := s.fields.ref

def Schema.enum (s : Schema) : Option (List PyVal) := s.fields.enum

def Schema.properties (s : Schema) : Option (List (String × Schema)) := s.fields.properties

def Schema.required (s : Schema) : Option (List String) := s.fields.required

def Schema.dependencies (s : Schema) : Option (List (String × DepEntry Schema)) := s.fields.dependencies

def Schema.minProperties (s : Schema) : Option Int := s.fields.minProperties

def Schema.maxProperties (s : Schema) : Option Int := s.fields.maxProperties

def Schema.minLength (s : Schema) : Option Int := s.fields.minLength

def Schema.maxLength (s : Schema) : Option Int := s.fields.maxLength

def Schema.pattern (s : Schema) : Option String := s.fields.pattern

def Schema.minimum (s : Schema) : Option Rat := s.fields.minimum

def Schema.maximum (s : Schema) : Option Rat := s.fields.maximum

def Schema.multipleOf (s : Schema) : Option Rat := s.fields.multipleOf

/-- Raw construction input for the base Schema model: the keyword
arguments of Schema(...).  dollarRef is the value supplied under the alias
key $ref; refName is the value supplied under the field name ref, which
pydantic also accepts because the model sets populate_by_name=True.
Nested schema positions hold already constructed Schema instances, the
form in which the repository and its tests pass them; pydantic does not
revalidate model instances. -/
structure RawSchema where
  dollarRef : Option String := Option.none
  refName : Option String := Option.none
  type : Option String := Option.none
  format : Option String := Option.none
  description : Option String := Option.none
  default : Option PyVal := Option.none
  title : Option String := Option.none
  «example» : Option PyVal := Option.none
  examples : Option (List PyVal) := Option.none
  nullable : Option Bool := Option.none
  enum : Option (List PyVal) := Option.none
  properties : Option (List (String × Schema)) := Option.none
  required : Option (List String) := Option.none
  additionalProperties : Option (BoolOrSchema Schema) := Option.none
  minProperties : Option Int := Option.none
  maxProperties : Option Int := Option.none
  patternProperties : Option (List (String × Schema)) := Option.none
  dependencies : Option (List (String × DepEntry Schema)) := Option.none
  minLength : Option Int := Option.none
  maxLength : Option Int := Option.none
  pattern : Option String := Option.none
  minimum : Option Rat := Option.none
  maximum : Option Rat := Option.none
  exclusiveMinimum : Option Bool := Option.none
  exclusiveMaximum : Option Bool := Option.none
  multipleOf : Option Rat := Option.none

/-- Whether any input key outside the allowed set of Schema.validate_refs
(allowed: $ref and description) carries a non-None value.  The key ref is
not in the allowed set, so a value supplied under the field name counts. -/
def anyFieldBesidesRefAndDescription (r : RawSchema) : Bool :=
  r.refName.isSome || r.type.isSome || r.format.isSome || r.default.isSome ||
  r.title.isSome || r.«example».isSome || r.examples.isSome ||
  r.nullable.isSome || r.enum.isSome || r.properties.isSome ||
  r.required.isSome || r.additionalProperties.isSome ||
  r.minProperties.isSome || r.maxProperties.isSome ||
  r.patternProperties.isSome || r.dependencies.isSome ||
  r.minLength.isSome || r.maxLength.isSome || r.pattern.isSome ||
  r.minimum.isSome || r.maximum.isSome || r.exclusiveMinimum.isSome ||
  r.exclusiveMaximum.isSome || r.multipleOf.isSome

/-- Schema.validate_refs (mode=before): when the key $ref is present, no
key other than $ref and description may carry a non-None value. -/
def refsOk (r : RawSchema) : Bool :=
  !(r.dollarRef.isSome && anyFieldBesidesRefAndDescription r)

/-- The valid values of the type field (Schema.validate_type). -/
def validTypes : List String :=
  ["string", "number", "integer", "boolean", "array", "object", "null"]

/-- Schema.validate_type: a provided type must be one of the valid type
names. -/
def typeFieldOk : Option String → Bool
  | Option.none => true
  | some t => validTypes.contains t

/-- The members of the StringFormat enumeration. -/
def stringFormats : List String :=
  ["date", "date-time", "password", "byte", "binary", "email", "uuid",
   "uri", "hostname", "ipv4", "ipv6"]

/-- The members of the NumberFormat enumeration. -/
def numberFormats : List String := ["float", "double", "int32", "int64"]

/-- Schema.validate_format: a format is checked against StringFormat when
the already validated type is string and against NumberFormat when it is
number or integer; any other type accepts any format. -/
def formatFieldOk (ty fmt : Option String) : Bool :=
  match fmt with
  | Option.none => true
  | some f =>
    if ty == some "string" then stringFormats.contains f
    else if ty == some "number" || ty == some "integer" then
      numberFormats.contains f
    else true

/-- The pydantic Field constraints of the base Schema: minProperties,
maxProperties, minLength and maxLength are declared ge=0 and multipleOf is
declared gt=0. -/
def boundsFieldsOk (r : RawSchema) : Bool :=
  (r.minProperties.all fun n => n ≥ 0) &&
  (r.maxProperties.all fun n => n ≥ 0) &&
  (r.minLength.all fun n => n ≥ 0) &&
  (r.maxLength.all fun n => n ≥ 0) &&
  (r.multipleOf.all fun q => q > 0)

/-- Schema.validate_pattern: a provided pattern must compile. -/
def patternFieldOk : Option String → Bool
  | Option.none => true
  | some p => reCompileOk p

/-- The loop body of Schema.validate_enum: walk the entries keeping the
set of string representations already seen and fail on a repeat. -/
def enumNoDup (seen : List String) : List PyVal → Bool
  | [] => true
  | x :: xs =>
    if seen.contains (pyStr x) then false
    else enumNoDup (pyStr x :: seen) xs

/-- Schema.validate_enum: entries must have pairwise distinct string
representations. -/
def enumFieldOk : Option (List PyVal) → Bool
  | Option.none => true
  | some l => enumNoDup [] l

/-- Schema.validate_combined_type_ref (mode=after): ref and type cannot
both be set on a constructed schema. -/
def typeRefOk (s : Schema) : Bool := !(s.ref.isSome && s.type.isSome)

/-- Python truthiness of an optional list or mapping field: None and the
empty collection are falsy. -/
def truthy {α : Type} : Option (List α) → Bool
  | some (_ :: _) => true
  | _ => false

/-- Whether a property name occurs among the keys of a property map. -/
def hasKey (props : List (String × Schema)) (p : String) : Bool :=
  props.any fun kv => kv.1 == p

/-- Comparison max ≥ min performed only when both bounds are present. -/
def optLeInt : Option Int → Option Int → Bool
  | some lo, some hi => hi ≥ lo
  | _, _ => true

/-- Comparison max ≥ min on rational bounds, only when both are present. -/
def optLeRat : Option Rat → Option Rat → Bool
  | some lo, some hi => hi ≥ lo
  | _, _ => true

/-- Schema.validate_object_properties (mode=after): for type object,
required entries must exist in properties when both are truthy, list
valued dependencies must name existing properties when dependencies and
properties are truthy, and maxProperties must be at least minProperties
when both are present. -/
def objectPropsOk (s : Schema) : Bool :=
  if s.type == some "object" then
    (if truthy s.required && truthy s.properties then
       (s.required.getD []).all fun p => hasKey (s.properties.getD []) p
     else true) &&
    (if truthy s.dependencies && truthy s.properties then
       (s.dependencies.getD []).all fun kv =>
         match kv.2 with
         | DepEntry.names deps => deps.all fun d => hasKey (s.properties.getD []) d
         | DepEntry.schema _ => true
     else true) &&
    optLeInt s.minProperties s.maxProperties
  else true

/-- The type map of Schema.validate_constraints and of
ArraySchema._validate_item_type, as an isinstance test.  Python counts a
bool as an instance of int, so a bool matches integer and number; dict
values are outside the modelled value universe, so object matches
nothing here. -/
def isInstanceOfType (v : PyVal) (t : String) : Bool :=
  if t == "string" then (match v with | PyVal.str _ => true | _ => false)
  else if t == "number" then
    (match v with | PyVal.int _ => true | PyVal.float _ => true | PyVal.bool _ => true | _ => false)
  else if t == "integer" then
    (match v with | PyVal.int _ => true | PyVal.bool _ => true | _ => false)
  else if t == "boolean" then (match v with | PyVal.bool _ => true | _ => false)
  else if t == "array" then (match v with | PyVal.list _ => true | _ => false)
  else if t == "object" then false
  else false

/-- Whether the type map of Schema.validate_constraints has an entry for a
type name (it has none for null). -/
def hasExpectedType (t : String) : Bool :=
  ["string", "number", "integer", "boolean", "array", "object"].contains t

/-- The default value branch of Schema.validate_constraints: when a type
with a type map entry is declared, the default must be an instance of the
mapped type, and an integer schema additionally rejects a float default
(unreachable after the isinstance test, kept as in the source). -/
def defaultTypeOk (d : PyVal) (t : String) : Bool :=
  if hasExpectedType t then
    if !(isInstanceOfType d t) then false
    else if t == "integer" && (match d with | PyVal.float _ => true | _ => false) then false
    else true
  else true

/-- Schema.validate_constraints (mode=after): ordered length bounds for
type string, ordered numeric bounds and positive multipleOf for types
number and integer, and a default matching the declared type. -/
def constraintsOk (s : Schema) : Bool :=
  (if s.type == some "string" then optLeInt s.minLength s.maxLength
   else true) &&
  (if s.type == some "number" || s.type == some "integer" then
     optLeRat s.minimum s.maximum && (s.multipleOf.all fun q => q > 0)
   else true) &&
  (match s.default, s.type with
   | some d, some t => defaultTypeOk d t
   | _, _ => true)

/-- The Schema instance assembled from validated raw input: the ref field
is filled from the alias key or, failing that, from the field name, and
the bool fields fall back to their declared defaults. -/
def buildSchema (r : RawSchema) : Schema :=
  Schema.mk
    { type := r.type
      format := r.format
      description := r.description
      default := r.default
      title := r.title
      «example» := r.«example»
      examples := r.examples
      nullable := r.nullable.getD false
      ref := r.dollarRef.orElse fun _ => r.refName
      enum := r.enum
      properties := r.properties
      required := r.required
      additionalProperties := r.additionalProperties
      minProperties := r.minProperties
      maxProperties := r.maxProperties
      patternProperties := r.patternProperties
      dependencies := r.dependencies
      minLength := r.minLength
      maxLength := r.maxLength
      pattern := r.pattern
      minimum := r.minimum
      maximum := r.maximum
      exclusiveMinimum := r.exclusiveMinimum.getD false
      exclusiveMaximum := r.exclusiveMaximum.getD false
      multipleOf := r.multipleOf }

/-- Construction of a base Schema: the mode=before validator, the field
constraints and field validators in declaration order, then the
mode=after validators.  Construction succeeds exactly when every
validator passes; the error strings abbreviate the pydantic messages. -/
def constructSchema (r : RawSchema) : Except String Schema :=
  if refsOk r = false then
    Except.error "Schema with $ref cannot have additional fields"
  else if typeFieldOk r.type = false then Except.error "Invalid schema type"
  else if formatFieldOk r.type r.format = false then
    Except.error "Invalid format"
  else if boundsFieldsOk r = false then
    Except.error "Field constraint violated"
  else if patternFieldOk r.pattern = false then
    Except.error "Invalid regular expression pattern"
  else if enumFieldOk r.enum = false then
    Except.error "Duplicate values in enum"
  else if typeRefOk (buildSchema r) = false then
    Except.error "Cannot specify both $ref and type in schema"
  else if objectPropsOk (buildSchema r) = false then
    Except.error "Object property validation failed"
  else if constraintsOk (buildSchema r) = false then
    Except.error "Constraint validation failed"
  else Except.ok (buildSchema r)

/-- Whether construction succeeded. -/
def isOk {α : Type} : Except String α → Bool
  | Except.ok _ => true
  | Except.error _ => false

/-- The items field of ArraySchema: Union of one Schema (homogeneous
arrays) and a list of Schemas (tuple validation). -/
inductive ItemsU where
  | single : Schema → ItemsU
  | tuple : List Schema → ItemsU

/-- A constructed ArraySchema instance: the inherited Schema fields (type
is non optional and defaults to array) plus the array specific fields. -/
structure ArraySchema where
  type : String
  format : Option String := Option.none
  description : Option String := Option.none
  default : Option PyVal := Option.none
  title : Option String := Option.none
  «example» : Option PyVal := Option.none
  examples : Option (List PyVal) := Option.none
  nullable : Bool := false
  ref : Option String := Option.none
  enum : Option (List PyVal) := Option.none
  properties : Option (List (String × Schema)) := Option.none
  required : Option (List String) := Option.none
  additionalProperties : Option (BoolOrSchema Schema) := Option.none
  minProperties : Option Int := Option.none
  maxProperties : Option Int := Option.none
  patternProperties : Option (List (String × Schema)) := Option.none
  dependencies : Option (List (String × DepEntry Schema)) := Option.none
  minLength : Option Int := Option.none
  maxLength : Option Int := Option.none
  pattern : Option String := Option.none
  minimum : Option Rat := Option.none
  maximum : Option Rat := Option.none
  exclusiveMinimum : Bool := false
  exclusiveMaximum : Bool := false
  multipleOf : Option Rat := Option.none
  items : ItemsU
  minItems : Option Int := Option.none
  maxItems : Option Int := Option.none
  uniqueItems : Bool := false
  additionalItems : Option (BoolOrSchema Schema) := Option.none
  contains : Option Schema := Option.none
  minContains : Option Int := Option.none
  maxContains : Option Int := Option.none

/-- Raw construction input for ArraySchema(...): the inherited keyword
arguments plus the array specific ones.  items is a required field, so a
missing items (Option.none) fails construction. -/
structure RawArraySchema extends RawSchema where
  items : Option ItemsU := Option.none
  minItems : Option Int := Option.none
  maxItems : Option Int := Option.none
  uniqueItems : Option Bool := Option.none
  additionalItems : Option (BoolOrSchema Schema) := Option.none
  contains : Option Schema := Option.none
  minContains : Option Int := Option.none
  maxContains : Option Int := Option.none

/-- Schema.validate_refs as it applies to an ArraySchema input: the raw
dict additionally holds the array specific keys, none of which is in the
allowed set. -/
def arrayRefsOk (a : RawArraySchema) : Bool :=
  !(a.dollarRef.isSome &&
    (anyFieldBesidesRefAndDescription a.toRawSchema || a.items.isSome ||
     a.minItems.isSome || a.maxItems.isSome || a.uniqueItems.isSome ||
     a.additionalItems.isSome || a.contains.isSome ||
     a.minContains.isSome || a.maxContains.isSome))

/-- ArraySchema.validate_items: a list of item schemas must be non empty
(the typed embedding makes the all-items-are-schemas branch vacuous). -/
def itemsFieldOk : ItemsU → Bool
  | ItemsU.single _ => true
  | ItemsU.tuple l => !l.isEmpty

/-- The pydantic Field constraints of the array specific fields: minItems
and maxItems are ge=0, minContains and maxContains are ge=1. -/
def arrayBoundsFieldsOk (a : RawArraySchema) : Bool :=
  (a.minItems.all fun n => n ≥ 0) &&
  (a.maxItems.all fun n => n ≥ 0) &&
  (a.minContains.all fun n => n ≥ 1) &&
  (a.maxContains.all fun n => n ≥ 1)

/-- ArraySchema._validate_item_type: no check when the item schema has no
type or a type without a type map entry; an integer schema rejects a
float item; otherwise the isinstance test decides. -/
def validateItemType (item : PyVal) (sch : Schema) : Bool :=
  match sch.type with
  | Option.none => true
  | some t =>
    if !(hasExpectedType t) then true
    else if t == "integer" && (match item with | PyVal.float _ => true | _ => false) then false
    else isInstanceOfType item t

/-- The uniqueness test of ArraySchema.validate_schema: the set of string
representations has the same size as the list, i.e. the string
representations are pairwise distinct. -/
def strsDistinct : List PyVal → Bool
  | [] => true
  | x :: xs => !((xs.map pyStr).contains (pyStr x)) && strsDistinct xs

/-- The Python test additionalItems is False (identity with the False
object; True, None and schema values do not restrict). -/
def additionalItemsIsFalse : Option (BoolOrSchema Schema) → Bool
  | some (BoolOrSchema.bool false) => true
  | _ => false

/-- The per-array checks that ArraySchema.validate_schema applies to a
default array and to each example array: length bounds, uniqueness under
uniqueItems, and item typing (homogeneous, or positional under tuple
validation with the additionalItems is False length cap). -/
def arrayValueOk (a : ArraySchema) (xs : List PyVal) : Bool :=
  (a.minItems.all fun m => (xs.length : Int) ≥ m) &&
  (a.maxItems.all fun m => (xs.length : Int) ≤ m) &&
  (if a.uniqueItems then strsDistinct xs else true) &&
  (match a.items with
   | ItemsU.single sch => xs.all fun item => validateItemType item sch
   | ItemsU.tuple schs =>
     (if xs.length > schs.length && additionalItemsIsFalse a.additionalItems
      then false else true) &&
     ((xs.zip schs).all fun p => validateItemType p.1 p.2))

/-- ArraySchema.validate_schema (mode=after): ordered item count bounds,
contains bounds, and the default array and every example array must be
lists satisfying arrayValueOk. -/
def arrayAfterOk (a : ArraySchema) : Bool :=
  optLeInt a.minItems a.maxItems &&
  (if a.contains.isSome then
     (a.minContains.all fun n => n ≥ 1) &&
     (match a.maxContains, a.minContains with
      | some hi, some lo => hi ≥ lo
      | _, _ => true)
   else true) &&
  (match a.default with
   | Option.none => true
   | some (PyVal.list xs) => arrayValueOk a xs
   | some _ => false) &&
  (match a.examples with
   | Option.none => true
   | some exs =>
     exs.all fun e =>
       match e with
       | PyVal.list xs => arrayValueOk a xs
       | _ => false)

/-- The ArraySchema instance assembled from validated raw input. -/
def buildArraySchema (a : RawArraySchema) (it : ItemsU) : ArraySchema :=
  { type := a.type.getD "array"
    format := a.format
    description := a.description
    default := a.default
    title := a.title
    «example» := a.«example»
    examples := a.examples
    nullable := a.nullable.getD false
    ref := a.dollarRef.orElse fun _ => a.refName
    enum := a.enum
    properties := a.properties
    required := a.required
    additionalProperties := a.additionalProperties
    minProperties := a.minProperties
    maxProperties := a.maxProperties
    patternProperties := a.patternProperties
    dependencies := a.dependencies
    minLength := a.minLength
    maxLength := a.maxLength
    pattern := a.pattern
    minimum := a.minimum
    maximum := a.maximum
    exclusiveMinimum := a.exclusiveMinimum.getD false
    exclusiveMaximum := a.exclusiveMaximum.getD false
    multipleOf := a.multipleOf
    items := it
    minItems := a.minItems
    maxItems := a.maxItems
    uniqueItems := a.uniqueItems.getD false
    additionalItems := a.additionalItems
    contains := a.contains
    minContains := a.minContains
    maxContains := a.maxContains }

/-- The inherited mode=after validators viewed on a constructed
ArraySchema: validate_combined_type_ref, validate_object_properties and
validate_constraints read the same inherited fields, so they are applied
to a base Schema carrying them (type is always present on an
ArraySchema). -/
def arrayBaseView (a : ArraySchema) : Schema :=
  Schema.mk
    { type := some a.type
      format := a.format
      description := a.description
      default := a.default
      title := a.title
      «example» := a.«example»
      examples := a.examples
      nullable := a.nullable
      ref := a.ref
      enum := a.enum
      properties := a.properties
      required := a.required
      additionalProperties := a.additionalProperties
      minProperties := a.minProperties
      maxProperties := a.maxProperties
      patternProperties := a.patternProperties
      dependencies := a.dependencies
      minLength := a.minLength
      maxLength := a.maxLength
      pattern := a.pattern
      minimum := a.minimum
      maximum := a.maximum
      exclusiveMinimum := a.exclusiveMinimum
      exclusiveMaximum := a.exclusiveMaximum
      multipleOf := a.multipleOf }

/-- Construction of an ArraySchema: the inherited mode=before validator
over the full raw dict, the inherited and array specific field
constraints and field validators in declaration order, then the inherited
and array specific mode=after validators. -/
def constructArraySchema (a : RawArraySchema) : Except String ArraySchema :=
  if arrayRefsOk a = false then
    Except.error "Schema with $ref cannot have additional fields"
  else if typeFieldOk a.type = false then Except.error "Invalid schema type"
  else if formatFieldOk (some (a.type.getD "array")) a.format = false then
    Except.error "Invalid format"
  else if boundsFieldsOk a.toRawSchema = false then
    Except.error "Field constraint violated"
  else if patternFieldOk a.pattern = false then
    Except.error "Invalid regular expression pattern"
  else if enumFieldOk a.enum = false then
    Except.error "Duplicate values in enum"
  else
    match a.items with
    | Option.none => Except.error "Field required"
    | some it =>
      if itemsFieldOk it = false then
        Except.error "Items list cannot be empty"
      else if arrayBoundsFieldsOk a = false then
        Except.error "Field constraint violated"
      else if optLeInt a.minItems a.maxItems = false then
        Except.error "maxItems must be >= minItems"
      else if optLeInt a.minContains a.maxContains = false then
        Except.error "maxContains must be >= minContains"
      else if typeRefOk (arrayBaseView (buildArraySchema a it)) = false then
        Except.error "Cannot specify both $ref and type in schema"
      else if objectPropsOk (arrayBaseView (buildArraySchema a it)) = false then
        Except.error "Object property validation failed"
      else if constraintsOk (arrayBaseView (buildArraySchema a it)) = false then
        Except.error "Constraint validation failed"
      else if arrayAfterOk (buildArraySchema a it) = false then
        Except.error "Array schema validation failed"
      else Except.ok (buildArraySchema a it)

/-- A constructed ObjectSchema instance: the inherited Schema fields with
the object specific fields made non optional (properties, required,
patternProperties and dependencies default to empty, additionalProperties
to True, type to object). -/
structure ObjectSchema where
  type : String
  format : Option String := Option.none
  description : Option String := Option.none
  default : Option PyVal := Option.none
  title : Option String := Option.none
  «example» : Option PyVal := Option.none
  examples : Option (List PyVal) := Option.none
  nullable : Bool := false
  ref : Option String := Option.none
  enum : Option (List PyVal) := Option.none
  properties : List (String × Schema) := []
  required : List String := []
  additionalProperties : BoolOrSchema Schema := BoolOrSchema.bool true
  minProperties : Option Int := Option.none
  maxProperties : Option Int := Option.none
  patternProperties : List (String × Schema) := []
  dependencies : List (String × DepEntry Schema) := []
  minLength : Option Int := Option.none
  maxLength : Option Int := Option.none
  pattern : Option String := Option.none
  minimum : Option Rat := Option.none
  maximum : Option Rat := Option.none
  exclusiveMinimum : Bool := false
  exclusiveMaximum : Bool := false
  multipleOf : Option Rat := Option.none

/-- ObjectSchema.validate_required: every required name must already be a
key of the validated properties (defaulting to the empty mapping). -/
def requiredFieldOk (props : List (String × Schema)) (req : List String) : Bool :=
  req.all fun p => hasKey props p

/-- ObjectSchema.validate_patterns: every patternProperties key must
compile as a regular expression. -/
def patternPropsFieldOk (pats : List (String × Schema)) : Bool :=
  pats.all fun kv => reCompileOk kv.1

/-- ObjectSchema.validate_max_properties: maxProperties must be at least
minProperties when both are provided. -/
def maxPropertiesFieldOk (r : RawSchema) : Bool :=
  optLeInt r.minProperties r.maxProperties

/-- ObjectSchema.validate_schema (mode=after): ordered property count
bounds, and list valued dependencies must name existing properties (here
unconditionally, unlike the inherited check, which is skipped when
properties is empty). -/
def objectAfterOk (o : ObjectSchema) : Bool :=
  optLeInt o.minProperties o.maxProperties &&
  o.dependencies.all fun kv =>
    match kv.2 with
    | DepEntry.names deps => deps.all fun d => hasKey o.properties d
    | DepEntry.schema _ => true

/-- The ObjectSchema instance assembled from validated raw input. -/
def buildObjectSchema (r : RawSchema) : ObjectSchema :=
  { type := r.type.getD "object"
    format := r.format
    description := r.description
    default := r.default
    title := r.title
    «example» := r.«example»
    examples := r.examples
    nullable := r.nullable.getD false
    ref := r.dollarRef.orElse fun _ => r.refName
    enum := r.enum
    properties := r.properties.getD []
    required := r.required.getD []
    additionalProperties := (r.additionalProperties).getD (BoolOrSchema.bool true)
    minProperties := r.minProperties
    maxProperties := r.maxProperties
    patternProperties := r.patternProperties.getD []
    dependencies := r.dependencies.getD []
    minLength := r.minLength
    maxLength := r.maxLength
    pattern := r.pattern
    minimum := r.minimum
    maximum := r.maximum
    exclusiveMinimum := r.exclusiveMinimum.getD false
    exclusiveMaximum := r.exclusiveMaximum.getD false
    multipleOf := r.multipleOf }

/-- The inherited mode=after validators viewed on a constructed
ObjectSchema (type is always present; the collection fields carry their
applied defaults, whose Python truthiness an empty collection fails just
like None). -/
def objectBaseView (o : ObjectSchema) : Schema :=
  Schema.mk
    { type := some o.type
      format := o.format
      description := o.description
      default := o.default
      title := o.title
      «example» := o.«example»
      examples := o.examples
      nullable := o.nullable
      ref := o.ref
      enum := o.enum
      properties := some o.properties
      required := some o.required
      additionalProperties := some o.additionalProperties
      minProperties := o.minProperties
      maxProperties := o.maxProperties
      patternProperties := some o.patternProperties
      dependencies := some o.dependencies
      minLength := o.minLength
      maxLength := o.maxLength
      pattern := o.pattern
      minimum := o.minimum
      maximum := o.maximum
      exclusiveMinimum := o.exclusiveMinimum
      exclusiveMaximum := o.exclusiveMaximum
      multipleOf := o.multipleOf }

/-- Construction of an ObjectSchema from the same keyword arguments as
the base Schema (the object specific fields override the inherited ones
in place and keep their positions): the inherited mode=before validator,
the field constraints and field validators in declaration order, then the
inherited and object specific mode=after validators. -/
def constructObjectSchema (r : RawSchema) : Except String ObjectSchema :=
  if refsOk r = false then
    Except.error "Schema with $ref cannot have additional fields"
  else if typeFieldOk r.type = false then Except.error "Invalid schema type"
  else if formatFieldOk (some (r.type.getD "object")) r.format = false then
    Except.error "Invalid format"
  else if boundsFieldsOk r = false then
    Except.error "Field constraint violated"
  else if requiredFieldOk (r.properties.getD []) (r.required.getD []) = false then
    Except.error "Required property not found"
  else if maxPropertiesFieldOk r = false then
    Except.error "maxProperties must be >= minProperties"
  else if patternPropsFieldOk (r.patternProperties.getD []) = false then
    Except.error "Invalid regex pattern"
  else if patternFieldOk r.pattern = false then
    Except.error "Invalid regular expression pattern"
  else if enumFieldOk r.enum = false then
    Except.error "Duplicate values in enum"
  else if typeRefOk (objectBaseView (buildObjectSchema r)) = false then
    Except.error "Cannot specify both $ref and type in schema"
  else if objectPropsOk (objectBaseView (buildObjectSchema r)) = false then
    Except.error "Object property validation failed"
  else if constraintsOk (objectBaseView (buildObjectSchema r)) = false then
    Except.error "Constraint validation failed"
  else if objectAfterOk (buildObjectSchema r) = false then
    Except.error "Object schema validation failed"
  else Except.ok (buildObjectSchema r)

/-- A constructed ResponseDelayConfig instance
(mockingj.models.config.ResponseDelayConfig). -/
structure ResponseDelayConfig where
  enabled : Bool := false
  min_ms : Int := 0
  max_ms : Int := 100

/-- A constructed MockConfig instance (mockingj.models.config.MockConfig). -/
structure MockConfig where
  seed : Int
  consistent_responses : Bool := true
  cache_enabled : Bool := true
  cache_ttl : Int := 300
  response_delay : ResponseDelayConfig := {}

/-- Raw construction input for MockConfig(...): seed is required, the
other fields have defaults; a nested response_delay is passed as an
already constructed instance, which pydantic does not revalidate. -/
structure RawMockConfig where
  seed : Option Int := Option.none
  consistent_responses : Option Bool := Option.none
  cache_enabled : Option Bool := Option.none
  cache_ttl : Option Int := Option.none
  response_delay : Option ResponseDelayConfig := Option.none

/-- Construction of a MockConfig: seed is a required field and cache_ttl
is declared Field(300, ge=30, le=86400). -/
def constructMockConfig (r : RawMockConfig) : Except String MockConfig :=
  match r.seed with
  | Option.none => Except.error "Field required"
  | some sd =>
    if (r.cache_ttl.all fun t => t ≥ 30 && t ≤ 86400) = false then
      Except.error "cache_ttl out of range"
    else
      Except.ok
        { seed := sd
          consistent_responses := r.consistent_responses.getD true
          cache_enabled := r.cache_enabled.getD true
          cache_ttl := r.cache_ttl.getD 300
          response_delay := r.response_delay.getD {} }

/-- Modelled from the spec: pairwise distinctness of enum entries by
Python value equality, the distinctness notion the specification
states. -/
def pairwiseValueDistinct : List PyVal → Bool
  | [] => true
  | x :: xs => !(xs.any fun y => pyEq x y) && pairwiseValueDistinct xs

/-- The conditions the claim states for a default or example array, as
consequences of ArraySchema.validate_schema: length bounds, uniqueness
(by string representation) under uniqueItems, homogeneous item typing,
and positional typing plus the length cap under tuple validation. -/
def arrayValueSpec (s : ArraySchema) (xs : List PyVal) : Prop :=
  (∀ m, s.minItems = some m → m ≤ (xs.length : Int)) ∧
  (∀ m, s.maxItems = some m → (xs.length : Int) ≤ m) ∧
  (s.uniqueItems = true → (xs.map pyStr).Nodup) ∧
  (∀ sch, s.items = ItemsU.single sch →
    ∀ x ∈ xs, validateItemType x sch = true) ∧
  (∀ schs, s.items = ItemsU.tuple schs →
    (additionalItemsIsFalse s.additionalItems = true → xs.length ≤ schs.length) ∧
    ∀ p ∈ xs.zip schs, validateItemType p.1 p.2 = true)

theorem isOk_iff_exists {α : Type} (e : Except String α) :
    isOk e = true ↔ ∃ a, e = Except.ok a := by
  cases e <;> simp [isOk]

theorem constructSchema_eq_ok_iff (r : RawSchema) (s : Schema) :
    constructSchema r = Except.ok s ↔
      (refsOk r = true ∧ typeFieldOk r.type = true ∧
       formatFieldOk r.type r.format = true ∧ boundsFieldsOk r = true ∧
       patternFieldOk r.pattern = true ∧ enumFieldOk r.enum = true ∧
       typeRefOk (buildSchema r) = true ∧
       objectPropsOk (buildSchema r) = true ∧
       constraintsOk (buildSchema r) = true ∧ s = buildSchema r) := by
  cases h1 : refsOk r with
  | false => simp [constructSchema, h1]
  | true =>
  cases h2 : typeFieldOk r.type with
  | false => simp [constructSchema, h1, h2]
  | true =>
  cases h3 : formatFieldOk r.type r.format with
  | false => simp [constructSchema, h1, h2, h3]
  | true =>
  cases h4 : boundsFieldsOk r with
  | false => simp [constructSchema, h1, h2, h3, h4]
  | true =>
  cases h5 : patternFieldOk r.pattern with
  | false => simp [constructSchema, h1, h2, h3, h4, h5]
  | true =>
  cases h6 : enumFieldOk r.enum with
  | false => simp [constructSchema, h1, h2, h3, h4, h5, h6]
  | true =>
  cases h7 : typeRefOk (buildSchema r) with
  | false => simp [constructSchema, h1, h2, h3, h4, h5, h6, h7]
  | true =>
  cases h8 : objectPropsOk (buildSchema r) with
  | false => simp [constructSchema, h1, h2, h3, h4, h5, h6, h7, h8]
  | true =>
  cases h9 : constraintsOk (buildSchema r) with
  | false => simp [constructSchema, h1, h2, h3, h4, h5, h6, h7, h8, h9]
  | true =>
    simp [constructSchema, h1, h2, h3, h4, h5, h6, h7, h8, h9, eq_comm]

theorem constructSchema_isOk_iff (r : RawSchema) :
    isOk (constructSchema r) = true ↔
      (refsOk r = true ∧ typeFieldOk r.type = true ∧
       formatFieldOk r.type r.format = true ∧ boundsFieldsOk r = true ∧
       patternFieldOk r.pattern = true ∧ enumFieldOk r.enum = true ∧
       typeRefOk (buildSchema r) = true ∧
       objectPropsOk (buildSchema r) = true ∧
       constraintsOk (buildSchema r) = true) := by
  rw [isOk_iff_exists]
  constructor
  · rintro ⟨a, ha⟩
    have h := (constructSchema_eq_ok_iff r a).mp ha
    tauto
  · intro h
    exact ⟨buildSchema r, (constructSchema_eq_ok_iff r (buildSchema r)).mpr (by tauto)⟩

set_option maxRecDepth 4000 in
theorem constructArraySchema_eq_ok_iff (a : RawArraySchema) (s : ArraySchema) :
    constructArraySchema a = Except.ok s ↔
      (arrayRefsOk a = true ∧ typeFieldOk a.type = true ∧
       formatFieldOk (some (a.type.getD "array")) a.format = true ∧
       boundsFieldsOk a.toRawSchema = true ∧
       patternFieldOk a.pattern = true ∧ enumFieldOk a.enum = true ∧
       ∃ it, a.items = some it ∧ itemsFieldOk it = true ∧
         arrayBoundsFieldsOk a = true ∧
         optLeInt a.minItems a.maxItems = true ∧
         optLeInt a.minContains a.maxContains = true ∧
         typeRefOk (arrayBaseView (buildArraySchema a it)) = true ∧
         objectPropsOk (arrayBaseView (buildArraySchema a it)) = true ∧
         constraintsOk (arrayBaseView (buildArraySchema a it)) = true ∧
         arrayAfterOk (buildArraySchema a it) = true ∧
         s = buildArraySchema a it) := by
  cases h1 : arrayRefsOk a with
  | false => simp [constructArraySchema, h1]
  | true =>
  cases h2 : typeFieldOk a.type with
  | false => simp [constructArraySchema, h1, h2]
  | true =>
  cases h3 : formatFieldOk (some (a.type.getD "array")) a.format with
  | false => simp [constructArraySchema, h1, h2, h3]
  | true =>
  cases h4 : boundsFieldsOk a.toRawSchema with
  | false => simp [constructArraySchema, h1, h2, h3, h4]
  | true =>
  cases h5 : patternFieldOk a.pattern with
  | false => simp [constructArraySchema, h1, h2, h3, h4, h5]
  | true =>
  cases h6 : enumFieldOk a.enum with
  | false => simp [constructArraySchema, h1, h2, h3, h4, h5, h6]
  | true =>
  cases h7 : a.items with
  | none => simp [constructArraySchema, h1, h2, h3, h4, h5, h6, h7]
  | some it =>
  cases h8 : itemsFieldOk it with
  | false => simp [constructArraySchema, h1, h2, h3, h4, h5, h6, h7, h8]
  | true =>
  cases h9 : arrayBoundsFieldsOk a with
  | false => simp [constructArraySchema, h1, h2, h3, h4, h5, h6, h7, h8, h9]
  | true =>
  cases h10 : optLeInt a.minItems a.maxItems with
  | false => simp [constructArraySchema, h1, h2, h3, h4, h5, h6, h7, h8, h9, h10]
  | true =>
  cases h11 : optLeInt a.minContains a.maxContains with
  | false => simp [constructArraySchema, h1, h2, h3, h4, h5, h6, h7, h8, h9, h10, h11]
  | true =>
  cases h12 : typeRefOk (arrayBaseView (buildArraySchema a it)) with
  | false => simp [constructArraySchema, h1, h2, h3, h4, h5, h6, h7, h8, h9, h10, h11, h12]
  | true =>
  cases h13 : objectPropsOk (arrayBaseView (buildArraySchema a it)) with
  | false => simp [constructArraySchema, h1, h2, h3, h4, h5, h6, h7, h8, h9, h10, h11, h12, h13]
  | true =>
  cases h14 : constraintsOk (arrayBaseView (buildArraySchema a it)) with
  | false => simp [constructArraySchema, h1, h2, h3, h4, h5, h6, h7, h8, h9, h10, h11, h12, h13, h14]
  | true =>
  cases h15 : arrayAfterOk (buildArraySchema a it) with
  | false => simp [constructArraySchema, h1, h2, h3, h4, h5, h6, h7, h8, h9, h10, h11, h12, h13, h14, h15]
  | true =>
    have hc : constructArraySchema a = Except.ok (buildArraySchema a it) := by
      simp only [constructArraySchema, h1, h2, h3, h4, h5, h6, h7, h8, h9,
        h10, h11, h12, h13, h14, h15]
      rfl
    constructor
    · intro hok
      rw [hc] at hok
      exact ⟨rfl, rfl, rfl, rfl, rfl, rfl, it, rfl, h8, rfl, rfl, rfl,
        h12, h13, h14, h15, (Except.ok.inj hok).symm⟩
    · rintro ⟨-, -, -, -, -, -, it2, hit2, -, -, -, -, -, -, -, -, hs2⟩
      obtain rfl := Option.some.inj hit2
      rw [hs2]
      exact hc

theorem constructArraySchema_isOk_ex (a : RawArraySchema) :
    isOk (constructArraySchema a) = true →
      ∃ it, a.items = some it ∧
        constructArraySchema a = Except.ok (buildArraySchema a it) := by
  intro h
  obtain ⟨s, hs⟩ := (isOk_iff_exists (constructArraySchema a)).mp h
  obtain ⟨-, -, -, -, -, -, it, hit, -, -, -, -, -, -, -, -, hb⟩ :=
    (constructArraySchema_eq_ok_iff a s).mp hs
  exact ⟨it, hit, by rw [hs, hb]⟩

set_option maxRecDepth 4000 in
theorem constructObjectSchema_eq_ok_iff (r : RawSchema) (o : ObjectSchema) :
    constructObjectSchema r = Except.ok o ↔
      (refsOk r = true ∧ typeFieldOk r.type = true ∧
       formatFieldOk (some (r.type.getD "object")) r.format = true ∧
       boundsFieldsOk r = true ∧
       requiredFieldOk (r.properties.getD []) (r.required.getD []) = true ∧
       maxPropertiesFieldOk r = true ∧
       patternPropsFieldOk (r.patternProperties.getD []) = true ∧
       patternFieldOk r.pattern = true ∧ enumFieldOk r.enum = true ∧
       typeRefOk (objectBaseView (buildObjectSchema r)) = true ∧
       objectPropsOk (objectBaseView (buildObjectSchema r)) = true ∧
       constraintsOk (objectBaseView (buildObjectSchema r)) = true ∧
       objectAfterOk (buildObjectSchema r) = true ∧
       o = buildObjectSchema r) := by
  cases h1 : refsOk r with
  | false => simp [constructObjectSchema, h1]
  | true =>
  cases h2 : typeFieldOk r.type with
  | false => simp [constructObjectSchema, h1, h2]
  | true =>
  cases h3 : formatFieldOk (some (r.type.getD "object")) r.format with
  | false => simp [constructObjectSchema, h1, h2, h3]
  | true =>
  cases h4 : boundsFieldsOk r with
  | false => simp [constructObjectSchema, h1, h2, h3, h4]
  | true =>
  cases h5 : requiredFieldOk (r.properties.getD []) (r.required.getD []) with
  | false => simp [constructObjectSchema, h1, h2, h3, h4, h5]
  | true =>
  cases h6 : maxPropertiesFieldOk r with
  | false => simp [constructObjectSchema, h1, h2, h3, h4, h5, h6]
  | true =>
  cases h7 : patternPropsFieldOk (r.patternProperties.getD []) with
  | false => simp [constructObjectSchema, h1, h2, h3, h4, h5, h6, h7]
  | true =>
  cases h8 : patternFieldOk r.pattern with
  | false => simp [constructObjectSchema, h1, h2, h3, h4, h5, h6, h7, h8]
  | true =>
  cases h9 : enumFieldOk r.enum with
  | false => simp [constructObjectSchema, h1, h2, h3, h4, h5, h6, h7, h8, h9]
  | true =>
  cases h10 : typeRefOk (objectBaseView (buildObjectSchema r)) with
  | false => simp [constructObjectSchema, h1, h2, h3, h4, h5, h6, h7, h8, h9, h10]
  | true =>
  cases h11 : objectPropsOk (objectBaseView (buildObjectSchema r)) with
  | false => simp [constructObjectSchema, h1, h2, h3, h4, h5, h6, h7, h8, h9, h10, h11]
  | true =>
  cases h12 : constraintsOk (objectBaseView (buildObjectSchema r)) with
  | false => simp [constructObjectSchema, h1, h2, h3, h4, h5, h6, h7, h8, h9, h10, h11, h12]
  | true =>
  cases h13 : objectAfterOk (buildObjectSchema r) with
  | false => simp [constructObjectSchema, h1, h2, h3, h4, h5, h6, h7, h8, h9, h10, h11, h12, h13]
  | true =>
    have hc : constructObjectSchema r = Except.ok (buildObjectSchema r) := by
      simp only [constructObjectSchema, h1, h2, h3, h4, h5, h6, h7, h8, h9,
        h10, h11, h12, h13]
      rfl
    constructor
    · intro hok
      rw [hc] at hok
      exact ⟨rfl, rfl, rfl, rfl, rfl, rfl, rfl, rfl, rfl, rfl, rfl, rfl,
        rfl, (Except.ok.inj hok).symm⟩
    · rintro ⟨-, -, -, -, -, -, -, -, -, -, -, -, -, ho⟩
      rw [ho]
      exact hc

theorem constructMockConfig_isOk_iff (r : RawMockConfig) :
    isOk (constructMockConfig r) = true ↔
      (r.seed.isSome = true ∧
       (r.cache_ttl.all fun t => t ≥ 30 && t ≤ 86400) = true) := by
  cases hs : r.seed with
  | none => simp [constructMockConfig, isOk, hs]
  | some sd =>
    cases ht : r.cache_ttl.all fun t => t ≥ 30 && t ≤ 86400 with
    | false => simp [constructMockConfig, isOk, hs, ht]
    | true => simp [constructMockConfig, isOk, hs, ht]

theorem boolEq_of_iff {b1 b2 : Bool} (h : b1 = true ↔ b2 = true) : b1 = b2 := by
  cases b1 <;> cases b2 <;> simp_all

theorem andE {a b : Bool} (h : (a && b) = true) : a = true ∧ b = true := by
  cases a <;> cases b <;> simp_all

@[simp] theorem buildSchema_type (r : RawSchema) : (buildSchema r).type = r.type := rfl

@[simp] theorem buildSchema_ref (r : RawSchema) :
    (buildSchema r).ref = (r.dollarRef.orElse fun _ => r.refName) := rfl

@[simp] theorem buildSchema_enum (r : RawSchema) : (buildSchema r).enum = r.enum := rfl

@[simp] theorem buildSchema_default (r : RawSchema) : (buildSchema r).default = r.default := rfl

@[simp] theorem buildSchema_example (r : RawSchema) : (buildSchema r).«example» = r.«example» := rfl

@[simp] theorem buildSchema_examples (r : RawSchema) : (buildSchema r).examples = r.examples := rfl

@[simp] theorem buildSchema_properties (r : RawSchema) : (buildSchema r).properties = r.properties := rfl

@[simp] theorem buildSchema_required (r : RawSchema) : (buildSchema r).required = r.required := rfl

@[simp] theorem buildSchema_dependencies (r : RawSchema) : (buildSchema r).dependencies = r.dependencies := rfl

@[simp] theorem buildSchema_minProperties (r : RawSchema) : (buildSchema r).minProperties = r.minProperties := rfl

@[simp] theorem buildSchema_maxProperties (r : RawSchema) : (buildSchema r).maxProperties = r.maxProperties := rfl

@[simp] theorem buildSchema_minLength (r : RawSchema) : (buildSchema r).minLength = r.minLength := rfl

@[simp] theorem buildSchema_maxLength (r : RawSchema) : (buildSchema r).maxLength = r.maxLength := rfl

@[simp] theorem buildSchema_pattern (r : RawSchema) : (buildSchema r).pattern = r.pattern := rfl

@[simp] theorem buildSchema_minimum (r : RawSchema) : (buildSchema r).minimum = r.minimum := rfl

@[simp] theorem buildSchema_maximum (r : RawSchema) : (buildSchema r).maximum = r.maximum := rfl

@[simp] theorem buildSchema_multipleOf (r : RawSchema) : (buildSchema r).multipleOf = r.multipleOf := rfl

@[simp] theorem arrayBaseView_type (a : ArraySchema) : (arrayBaseView a).type = some a.type := rfl

@[simp] theorem arrayBaseView_ref (a : ArraySchema) : (arrayBaseView a).ref = a.ref := rfl

@[simp] theorem arrayBaseView_default (a : ArraySchema) : (arrayBaseView a).default = a.default := rfl

@[simp] theorem arrayBaseView_properties (a : ArraySchema) : (arrayBaseView a).properties = a.properties := rfl

@[simp] theorem arrayBaseView_required (a : ArraySchema) : (arrayBaseView a).required = a.required := rfl

@[simp] theorem arrayBaseView_dependencies (a : ArraySchema) : (arrayBaseView a).dependencies = a.dependencies := rfl

@[simp] theorem arrayBaseView_minProperties (a : ArraySchema) : (arrayBaseView a).minProperties = a.minProperties := rfl

@[simp] theorem arrayBaseView_maxProperties (a : ArraySchema) : (arrayBaseView a).maxProperties = a.maxProperties := rfl

@[simp] theorem arrayBaseView_minLength (a : ArraySchema) : (arrayBaseView a).minLength = a.minLength := rfl

@[simp] theorem arrayBaseView_maxLength (a : ArraySchema) : (arrayBaseView a).maxLength = a.maxLength := rfl

@[simp] theorem arrayBaseView_pattern (a : ArraySchema) : (arrayBaseView a).pattern = a.pattern := rfl

@[simp] theorem arrayBaseView_minimum (a : ArraySchema) : (arrayBaseView a).minimum = a.minimum := rfl

@[simp] theorem arrayBaseView_maximum (a : ArraySchema) : (arrayBaseView a).maximum = a.maximum := rfl

@[simp] theorem arrayBaseView_multipleOf (a : ArraySchema) : (arrayBaseView a).multipleOf = a.multipleOf := rfl

@[simp] theorem objectBaseView_type (o : ObjectSchema) : (objectBaseView o).type = some o.type := rfl

@[simp] theorem objectBaseView_ref (o : ObjectSchema) : (objectBaseView o).ref = o.ref := rfl

@[simp] theorem objectBaseView_pattern (o : ObjectSchema) : (objectBaseView o).pattern = o.pattern := rfl

theorem constraintsOk_string {s : Schema} (h : constraintsOk s = true)
    (hty : s.type = some "string") : optLeInt s.minLength s.maxLength = true := by
  rw [constraintsOk, hty] at h
  obtain ⟨h1, -⟩ := andE (andE h).1
  simpa using h1

theorem constraintsOk_numeric {s : Schema} (h : constraintsOk s = true)
    (hty : s.type = some "number" ∨ s.type = some "integer") :
    optLeRat s.minimum s.maximum = true ∧
    (s.multipleOf.all fun q => q > 0) = true := by
  cases hty with
  | inl ht =>
    rw [constraintsOk, ht] at h
    obtain ⟨-, h2⟩ := andE (andE h).1
    simp only [show ((some "number" == some "number" || some "number" == some "integer")) = true
      from by decide, if_true] at h2
    exact andE h2
  | inr ht =>
    rw [constraintsOk, ht] at h
    obtain ⟨-, h2⟩ := andE (andE h).1
    simp only [show ((some "integer" == some "number" || some "integer" == some "integer")) = true
      from by decide, if_true] at h2
    exact andE h2

theorem constraintsOk_default {s : Schema} (h : constraintsOk s = true)
    {d : PyVal} {t : String} (hd : s.default = some d) (ht : s.type = some t) :
    defaultTypeOk d t = true := by
  rw [constraintsOk, hd, ht] at h
  exact (andE h).2

theorem boundsFieldsOk_multipleOf {r : RawSchema} (h : boundsFieldsOk r = true) :
    (r.multipleOf.all fun q => q > 0) = true := by
  rw [boundsFieldsOk] at h
  exact (andE h).2

theorem option_all_iff {α : Type} (p : α → Bool) (o : Option α) :
    o.all p = true ↔ ∀ x, o = some x → p x = true := by
  cases o <;> simp [Option.all]

theorem optLeInt_iff (lo hi : Option Int) :
    optLeInt lo hi = true ↔ ∀ a b, lo = some a → hi = some b → a ≤ b := by
  cases lo <;> cases hi <;> simp [optLeInt]

theorem optLeRat_iff (lo hi : Option Rat) :
    optLeRat lo hi = true ↔ ∀ a b, lo = some a → hi = some b → a ≤ b := by
  cases lo <;> cases hi <;> simp [optLeRat]

/-- Claim C9: MockConfig construction succeeds exactly when the required
seed is supplied and cache_ttl, when supplied, lies in [30, 86400]; every
constructed configuration carries a cache_ttl in that range (the default
300 included). -/
theorem c9_cache_ttl_range :
    (∀ r : RawMockConfig, isOk (constructMockConfig r) = true ↔
      (r.seed.isSome = true ∧ ∀ t, r.cache_ttl = some t → 30 ≤ t ∧ t ≤ 86400)) ∧
    (∀ r c, constructMockConfig r = Except.ok c →
      30 ≤ c.cache_ttl ∧ c.cache_ttl ≤ 86400) := by
  constructor
  · intro r
    rw [constructMockConfig_isOk_iff]
    constructor
    · rintro ⟨hs, ht⟩
      refine ⟨hs, fun t h => ?_⟩
      have h2 := (option_all_iff _ r.cache_ttl).mp ht t h
      simp only [Bool.and_eq_true, decide_eq_true_eq, ge_iff_le] at h2
      exact h2
    · rintro ⟨hs, ht⟩
      refine ⟨hs, (option_all_iff _ r.cache_ttl).mpr fun t h => ?_⟩
      have := ht t h
      simp [this.1, this.2]
  · intro r c hc
    cases hs : r.seed with
    | none => rw [constructMockConfig, hs] at hc; exact Except.noConfusion hc
    | some sd =>
      cases ht : r.cache_ttl.all fun t => t ≥ 30 && t ≤ 86400 with
      | false =>
        rw [constructMockConfig, hs] at hc
        simp only [ht] at hc
        exact Except.noConfusion hc
      | true =>
        rw [constructMockConfig, hs] at hc
        simp only [ht] at hc
        have hb := Except.ok.inj hc
        cases htt : r.cache_ttl with
        | none =>
          rw [← hb]
          simp [htt]
        | some t =>
          have h2 := (option_all_iff _ r.cache_ttl).mp ht t htt
          simp only [Bool.and_eq_true, decide_eq_true_eq, ge_iff_le] at h2
          rw [← hb]
          simp only [htt, Option.getD_some]
          exact h2

/-- Claim C9 witness: a configuration with seed 42 and cache_ttl 400 is
accepted and its cache_ttl lies in range; cache_ttl 29 is rejected. -/
theorem c9_witness :
    isOk (constructMockConfig { seed := some 42, cache_ttl := some 400 }) = true ∧
    isOk (constructMockConfig { seed := some 42, cache_ttl := some 29 }) = false := by
  constructor
  · exact (c9_cache_ttl_range.1 _).mpr (by decide)
  · cases h : isOk (constructMockConfig { seed := some 42, cache_ttl := some 29 }) with
    | false => rfl
    | true =>
      have := ((c9_cache_ttl_range.1 _).mp h).2 29 rfl
      omega

/-- Claim C10: an ArraySchema whose items is an empty list is always
rejected, and every constructed tuple-style ArraySchema has a non empty
items sequence. -/
theorem c10_tuple_items_nonempty :
    (∀ a : RawArraySchema, a.items = some (ItemsU.tuple []) →
      isOk (constructArraySchema a) = false) ∧
    (∀ a s, constructArraySchema a = Except.ok s →
      ∀ l, s.items = ItemsU.tuple l → l ≠ []) := by
  constructor
  · intro a ha
    cases h : isOk (constructArraySchema a) with
    | false => rfl
    | true =>
      exfalso
      obtain ⟨s, hs⟩ := (isOk_iff_exists _).mp h
      obtain ⟨-, -, -, -, -, -, it, hit, h8, -⟩ :=
        (constructArraySchema_eq_ok_iff a s).mp hs
      rw [ha] at hit
      obtain rfl := Option.some.inj hit
      simp [itemsFieldOk] at h8
  · intro a s hs l hl
    obtain ⟨-, -, -, -, -, -, it, hit, h8, -, -, -, -, -, -, -, hb⟩ :=
      (constructArraySchema_eq_ok_iff a s).mp hs
    rw [hb] at hl
    simp only [buildArraySchema] at hl
    rw [hl] at h8
    simp [itemsFieldOk, List.isEmpty_iff] at h8
    exact h8

/-- Claim C10 witness: the empty tuple items list is rejected at a
concrete input, and a constructed one element tuple schema has non empty
items. -/
theorem c10_witness :
    isOk (constructArraySchema { items := some (ItemsU.tuple []) }) = false ∧
    ([Schema.mk {}] : List Schema) ≠ [] := by
  constructor
  · exact c10_tuple_items_nonempty.1 { items := some (ItemsU.tuple []) } rfl
  · exact c10_tuple_items_nonempty.2
      { items := some (ItemsU.tuple [Schema.mk {}]) }
      (buildArraySchema { items := some (ItemsU.tuple [Schema.mk {}]) }
        (ItemsU.tuple [Schema.mk {}]))
      (by rfl) [Schema.mk {}] rfl

/-- Claim C7: every constructed schema satisfies the bound ordering
invariants (maxLength at least minLength for type string, maximum at
least minimum and positive multipleOf for types number and integer,
maxItems at least minItems on an ArraySchema), and any input violating
one of them is rejected. -/
theorem c7_bound_invariants :
    (∀ r s, constructSchema r = Except.ok s →
      (s.type = some "string" →
        ∀ lo hi, s.minLength = some lo → s.maxLength = some hi → lo ≤ hi) ∧
      ((s.type = some "number" ∨ s.type = some "integer") →
        (∀ lo hi, s.minimum = some lo → s.maximum = some hi → lo ≤ hi) ∧
        (∀ m, s.multipleOf = some m → 0 < m))) ∧
    (∀ a s, constructArraySchema a = Except.ok s →
      ∀ lo hi, s.minItems = some lo → s.maxItems = some hi → lo ≤ hi) ∧
    (∀ r lo hi, r.type = some "string" → r.minLength = some lo →
      r.maxLength = some hi → hi < lo → isOk (constructSchema r) = false) ∧
    (∀ r lo hi, (r.type = some "number" ∨ r.type = some "integer") →
      r.minimum = some lo → r.maximum = some hi → hi < lo →
      isOk (constructSchema r) = false) ∧
    (∀ r m, (r.type = some "number" ∨ r.type = some "integer") →
      r.multipleOf = some m → m ≤ 0 → isOk (constructSchema r) = false) ∧
    (∀ a lo hi, a.minItems = some lo → a.maxItems = some hi → hi < lo →
      isOk (constructArraySchema a) = false) := by
  refine ⟨?_, ?_, ?_, ?_, ?_, ?_⟩
  · intro r s hs
    obtain ⟨-, -, -, h4, -, -, -, -, h9, rfl⟩ :=
      (constructSchema_eq_ok_iff r s).mp hs
    constructor
    · intro hty lo hi hlo hhi
      have h := constraintsOk_string h9 hty
      rw [hlo, hhi] at h
      simpa [optLeInt] using h
    · intro hty
      have h := constraintsOk_numeric h9 hty
      constructor
      · intro lo hi hlo hhi
        have h2 := h.1
        rw [hlo, hhi] at h2
        simpa [optLeRat] using h2
      · intro m hm
        have h2 := h.2
        rw [hm] at h2
        simpa using h2
  · intro a s hs
    obtain ⟨-, -, -, -, -, -, it, -, -, -, h10, -, -, -, -, -, rfl⟩ :=
      (constructArraySchema_eq_ok_iff a s).mp hs
    intro lo hi hlo hhi
    simp only [buildArraySchema] at hlo hhi
    rw [hlo, hhi] at h10
    simpa [optLeInt] using h10
  · intro r lo hi hty hlo hhi hlt
    cases hok : isOk (constructSchema r) with
    | false => rfl
    | true =>
      exfalso
      obtain ⟨-, -, -, -, -, -, -, -, h9⟩ := (constructSchema_isOk_iff r).mp hok
      have h := constraintsOk_string h9 (by simpa using hty)
      rw [show (buildSchema r).minLength = some lo from by simpa using hlo,
        show (buildSchema r).maxLength = some hi from by simpa using hhi] at h
      simp [optLeInt] at h
      omega
  · intro r lo hi hty hlo hhi hlt
    cases hok : isOk (constructSchema r) with
    | false => rfl
    | true =>
      exfalso
      obtain ⟨-, -, -, -, -, -, -, -, h9⟩ := (constructSchema_isOk_iff r).mp hok
      have h := (constraintsOk_numeric h9 (by simpa using hty)).1
      rw [show (buildSchema r).minimum = some lo from by simpa using hlo,
        show (buildSchema r).maximum = some hi from by simpa using hhi] at h
      simp [optLeRat] at h
      exact absurd h (not_le.mpr hlt)
  · intro r m hty hm hle
    cases hok : isOk (constructSchema r) with
    | false => rfl
    | true =>
      exfalso
      obtain ⟨-, -, -, h4, -⟩ := (constructSchema_isOk_iff r).mp hok
      have h := boundsFieldsOk_multipleOf h4
      rw [hm] at h
      simp at h
      exact absurd h (not_lt.mpr hle)
  · intro a lo hi hlo hhi hlt
    cases hok : isOk (constructArraySchema a) with
    | false => rfl
    | true =>
      exfalso
      obtain ⟨s, hs⟩ := (isOk_iff_exists _).mp hok
      obtain ⟨-, -, -, -, -, -, it, -, -, -, h10, -⟩ :=
        (constructArraySchema_eq_ok_iff a s).mp hs
      rw [hlo, hhi] at h10
      simp [optLeInt] at h10
      omega

/-- Claim C7 witness: the invariants hold on a constructed string schema
with bounds 2 and 5, and concrete violating inputs are rejected. -/
theorem c7_witness :
    (2 : Int) ≤ 5 ∧
    isOk (constructSchema
      { type := some "string", minLength := some 10,
        maxLength := some 5 }) = false ∧
    isOk (constructSchema
      { type := some "integer", minimum := some 9,
        maximum := some 1 }) = false ∧
    isOk (constructSchema { type := some "number", multipleOf := some 0 }) = false ∧
    isOk (constructArraySchema
      { items := some (ItemsU.single (Schema.mk {})),
        minItems := some 3, maxItems := some 1 }) = false := by
  refine ⟨?_, ?_, ?_, ?_, ?_⟩
  · exact (c7_bound_invariants.1
      { type := some "string", minLength := some 2, maxLength := some 5 }
      (buildSchema { type := some "string", minLength := some 2, maxLength := some 5 })
      (by rfl)).1 rfl 2 5 rfl rfl
  · exact c7_bound_invariants.2.2.1 _ 10 5 rfl rfl rfl (by decide)
  · exact c7_bound_invariants.2.2.2.1 _ 9 1 (Or.inr rfl) rfl rfl (by norm_num)
  · exact c7_bound_invariants.2.2.2.2.1 _ 0 (Or.inl rfl) rfl (by norm_num)
  · exact c7_bound_invariants.2.2.2.2.2 _ 3 1 rfl rfl (by decide)

@[simp] theorem buildObjectSchema_patternProperties (r : RawSchema) :
    (buildObjectSchema r).patternProperties = r.patternProperties.getD [] := rfl

@[simp] theorem buildObjectSchema_properties (r : RawSchema) :
    (buildObjectSchema r).properties = r.properties.getD [] := rfl

@[simp] theorem buildObjectSchema_required (r : RawSchema) :
    (buildObjectSchema r).required = r.required.getD [] := rfl

/-- Claim C8: a Schema pattern that does not compile, and an ObjectSchema
patternProperties key that does not compile, are rejected at construction
(modelled compile acceptance reCompileOk), so every constructed schema
holds only compiling patterns; construction is the only point at which
the error can arise, since a constructed value is returned only after the
validators have run. -/
theorem c8_patterns_compile :
    (∀ r p, r.pattern = some p → reCompileOk p = false →
      isOk (constructSchema r) = false) ∧
    (∀ r s, constructSchema r = Except.ok s →
      ∀ p, s.pattern = some p → reCompileOk p = true) ∧
    (∀ (r : RawSchema) (k : String) (sch : Schema),
      (k, sch) ∈ r.patternProperties.getD [] → reCompileOk k = false →
      isOk (constructObjectSchema r) = false) ∧
    (∀ r o, constructObjectSchema r = Except.ok o →
      ∀ (k : String) (sch : Schema), (k, sch) ∈ o.patternProperties →
        reCompileOk k = true) := by
  refine ⟨?_, ?_, ?_, ?_⟩
  · intro r p hp hc
    cases hok : isOk (constructSchema r) with
    | false => rfl
    | true =>
      exfalso
      obtain ⟨-, -, -, -, h5, -⟩ := (constructSchema_isOk_iff r).mp hok
      rw [hp] at h5
      simp only [patternFieldOk] at h5
      rw [hc] at h5
      exact Bool.noConfusion h5
  · intro r s hs p hp
    obtain ⟨-, -, -, -, h5, -, -, -, -, rfl⟩ :=
      (constructSchema_eq_ok_iff r s).mp hs
    rw [show r.pattern = some p from hp] at h5
    simpa [patternFieldOk] using h5
  · intro r k sch hk hc
    cases hok : isOk (constructObjectSchema r) with
    | false => rfl
    | true =>
      exfalso
      obtain ⟨o, ho⟩ := (isOk_iff_exists _).mp hok
      obtain ⟨-, -, -, -, -, -, h7, -⟩ :=
        (constructObjectSchema_eq_ok_iff r o).mp ho
      rw [patternPropsFieldOk, List.all_eq_true] at h7
      have := h7 (k, sch) hk
      rw [hc] at this
      exact Bool.noConfusion this
  · intro r o ho k sch hk
    obtain ⟨-, -, -, -, -, -, h7, -, -, -, -, -, -, rfl⟩ :=
      (constructObjectSchema_eq_ok_iff r o).mp ho
    rw [patternPropsFieldOk, List.all_eq_true] at h7
    exact h7 (k, sch) (by simpa using hk)

/-- Claim C8 witness: an unterminated character class is rejected both as
a pattern and as a patternProperties key, and a compiling pattern is kept
on the constructed schema. -/
theorem c8_witness :
    isOk (constructSchema { type := some "string", pattern := some "[" }) = false ∧
    isOk (constructObjectSchema
      { type := some "object",
        patternProperties := some [("[", Schema.mk {})] }) = false ∧
    reCompileOk "^[A-Z](3)$" = true := by
  refine ⟨?_, ?_, ?_⟩
  · exact c8_patterns_compile.1 _ "[" rfl (by decide)
  · exact c8_patterns_compile.2.2.1 _ "[" (Schema.mk {}) (by simp) (by decide)
  · exact c8_patterns_compile.2.1
      { type := some "string", pattern := some "^[A-Z](3)$" }
      (buildSchema { type := some "string", pattern := some "^[A-Z](3)$" })
      (by rfl) "^[A-Z](3)$" rfl

theorem enumNoDup_eq_true_iff (l : List PyVal) :
    ∀ seen, enumNoDup seen l = true ↔
      ((l.map pyStr).Nodup ∧ ∀ x ∈ l, ¬ pyStr x ∈ seen) := by
  induction l with
  | nil => intro seen; simp [enumNoDup]
  | cons x xs ih =>
    intro seen
    simp only [enumNoDup]
    by_cases hc : pyStr x ∈ seen
    · rw [if_pos (show seen.contains (pyStr x) = true from List.elem_iff.mpr hc)]
      simp only [Bool.false_eq_true, false_iff, not_and]
      intro hnd h
      exact (h x (by simp)) hc
    · rw [if_neg (show ¬ seen.contains (pyStr x) = true from
        fun hcc => hc (List.elem_iff.mp hcc))]
      rw [ih (pyStr x :: seen)]
      constructor
      · rintro ⟨hnd, hseen⟩
        refine ⟨List.nodup_cons.mpr ⟨fun hmem => ?_, hnd⟩, ?_⟩
        · obtain ⟨y, hy, hys⟩ := List.mem_map.mp hmem
          exact absurd (by simp [hys]) (hseen y hy)
        · intro z hz
          rcases List.mem_cons.mp hz with rfl | hz2
          · exact hc
          · intro hmem
            exact absurd (by simp [hmem]) (hseen z hz2)
      · rintro ⟨hnd, hseen⟩
        obtain ⟨hx, hnd2⟩ := List.nodup_cons.mp hnd
        refine ⟨hnd2, fun z hz hmem => ?_⟩
        rcases List.mem_cons.mp hmem with heq | hz3
        · exact absurd (heq ▸ List.mem_map_of_mem pyStr hz) hx
        · exact absurd hz3 (hseen z (by simp [hz]))

theorem enumFieldOk_iff (l : List PyVal) :
    enumFieldOk (some l) = true ↔ (l.map pyStr).Nodup := by
  rw [show enumFieldOk (some l) = enumNoDup [] l from rfl,
    enumNoDup_eq_true_iff]
  simp

/-- Claim C1 counterexample: the entries 1 and the string 1 are distinct
by value (Python 1 == two is false for a string), all other fields are
valid, yet construction is rejected, because validate_enum compares
string representations; so pairwise value distinct enums are not all
accepted. -/
theorem c1_counterexample :
    pairwiseValueDistinct [PyVal.int 1, PyVal.str "1"] = true ∧
    isOk (constructSchema
      { type := some "string",
        enum := some [PyVal.int 1, PyVal.str "1"] }) = false := by decide

/-- Claim C1 amended: Schema construction rejects an enum exactly when
two entries have the same string representation str(entry): any input
whose enum carries a str duplicate is rejected, and with the other fields
fixed valid an enum is accepted exactly when the entry strings are
pairwise distinct. -/
theorem c1_enum_str_criterion :
    (∀ r l, r.enum = some l → ¬ (l.map pyStr).Nodup →
      isOk (constructSchema r) = false) ∧
    (∀ l, isOk (constructSchema { type := some "string", enum := some l }) = true ↔
      (l.map pyStr).Nodup) := by
  constructor
  · intro r l hl hnd
    cases hok : isOk (constructSchema r) with
    | false => rfl
    | true =>
      exfalso
      obtain ⟨-, -, -, -, -, h6, -⟩ := (constructSchema_isOk_iff r).mp hok
      rw [hl] at h6
      exact absurd ((enumFieldOk_iff l).mp h6) hnd
  · intro l
    rw [constructSchema_isOk_iff]
    constructor
    · rintro ⟨-, -, -, -, -, h6, -⟩
      exact (enumFieldOk_iff l).mp h6
    · intro hnd
      refine ⟨rfl, rfl, rfl, rfl, rfl, (enumFieldOk_iff l).mpr hnd, rfl, ?_, ?_⟩
      · rfl
      · rfl

/-- Claim C1 witness: a str duplicate is rejected and a str distinct enum
is accepted. -/
theorem c1_witness :
    isOk (constructSchema
      { type := some "string",
        enum := some [PyVal.str "red", PyVal.str "red"] }) = false ∧
    isOk (constructSchema
      { type := some "string",
        enum := some [PyVal.str "red", PyVal.str "blue"] }) = true := by
  constructor
  · exact c1_enum_str_criterion.1 _ [PyVal.str "red", PyVal.str "red"] rfl (by decide)
  · exact (c1_enum_str_criterion.2 [PyVal.str "red", PyVal.str "blue"]).mpr (by decide)

theorem not_ok_of_refsViolation (r : RawSchema)
    (hd : r.dollarRef.isSome = true)
    (ha : anyFieldBesidesRefAndDescription r = true) :
    isOk (constructSchema r) = false := by
  cases hok : isOk (constructSchema r) with
  | false => rfl
  | true =>
    exfalso
    obtain ⟨h1, -⟩ := (constructSchema_isOk_iff r).mp hok
    rw [refsOk, hd, ha] at h1
    exact Bool.noConfusion h1

/-- Claim C2 counterexample: a reference supplied under the field name
ref (accepted because populate_by_name is set) bypasses validate_refs,
which only looks for the alias key, so a Schema carrying both a reference
and an enum is constructed successfully. -/
theorem c2_counterexample :
    constructSchema { refName := some "#/definitions/X", enum := some [PyVal.str "a"] } =
      Except.ok (buildSchema { refName := some "#/definitions/X", enum := some [PyVal.str "a"] }) ∧
    (buildSchema { refName := some "#/definitions/X", enum := some [PyVal.str "a"] }).ref =
      some "#/definitions/X" ∧
    (buildSchema { refName := some "#/definitions/X", enum := some [PyVal.str "a"] }).enum =
      some [PyVal.str "a"] :=
  ⟨rfl, rfl, rfl⟩

/-- Claim C2 amended: an input that carries the reference under the alias
key $ref fails whenever any key other than $ref and description holds a
non-None value, and combining a reference (under either spelling) with
type always fails; but a reference supplied under the field name ref can
coexist with any other field except type, so a constructed Schema can
hold both a reference and another semantic field. -/
theorem c2_ref_exclusivity :
    (∀ r, r.dollarRef.isSome = true →
      anyFieldBesidesRefAndDescription r = true →
      isOk (constructSchema r) = false) ∧
    (∀ r, (r.dollarRef.isSome || r.refName.isSome) = true →
      r.type.isSome = true → isOk (constructSchema r) = false) ∧
    (isOk (constructSchema
      { refName := some "#/definitions/X", enum := some [PyVal.str "a"] }) = true) := by
  refine ⟨not_ok_of_refsViolation, ?_, by decide⟩
  intro r hro ht
  cases hd : r.dollarRef with
  | some v =>
    refine not_ok_of_refsViolation r (by simp [hd]) ?_
    rw [anyFieldBesidesRefAndDescription, ht]
    simp
  | none =>
    cases hok : isOk (constructSchema r) with
    | false => rfl
    | true =>
      exfalso
      obtain ⟨-, -, -, -, -, -, h7, -⟩ := (constructSchema_isOk_iff r).mp hok
      rw [typeRefOk] at h7
      rw [show (buildSchema r).ref = (r.dollarRef.orElse fun _ => r.refName) from rfl] at h7
      rw [hd] at h7
      rw [show ((Option.none.orElse fun _ => r.refName) : Option String) = r.refName from rfl] at h7
      rw [show (buildSchema r).type = r.type from rfl, ht] at h7
      rw [show r.refName.isSome = true from by
        cases hrn : r.refName with
        | none => rw [hd, hrn] at hro; exact absurd hro (by decide)
        | some _ => rfl] at h7
      exact Bool.noConfusion h7

/-- Claim C2 witness: with the alias spelling any extra field is
rejected, and both spellings reject a type alongside the reference. -/
theorem c2_witness :
    isOk (constructSchema
      { dollarRef := some "#/definitions/X", enum := some [PyVal.str "a"] }) = false ∧
    isOk (constructSchema
      { dollarRef := some "#/definitions/X", type := some "string" }) = false ∧
    isOk (constructSchema
      { refName := some "#/definitions/X", type := some "string" }) = false := by
  refine ⟨?_, ?_, ?_⟩
  · exact c2_ref_exclusivity.1 _ rfl (by decide)
  · exact c2_ref_exclusivity.2.1 _ (by decide) rfl
  · exact c2_ref_exclusivity.2.1 _ (by decide) rfl

theorem not_ok_of_bad_default (r : RawSchema) (t : String) (d : PyVal)
    (ht : r.type = some t) (hd : r.default = some d)
    (he : hasExpectedType t = true) (hi : isInstanceOfType d t = false) :
    isOk (constructSchema r) = false := by
  cases hok : isOk (constructSchema r) with
  | false => rfl
  | true =>
    exfalso
    obtain ⟨-, -, -, -, -, -, -, -, h9⟩ := (constructSchema_isOk_iff r).mp hok
    have hdt := constraintsOk_default h9
      (show (buildSchema r).default = some d from hd)
      (show (buildSchema r).type = some t from ht)
    simp [defaultTypeOk, he, hi] at hdt

/-- Claim C3 counterexample: an integer schema whose example is a string
is accepted, because validate_constraints checks only the default value,
never the example. -/
theorem c3_counterexample :
    constructSchema { type := some "integer", «example» := some (PyVal.str "x") } =
      Except.ok (buildSchema { type := some "integer", «example» := some (PyVal.str "x") }) ∧
    (buildSchema { type := some "integer", «example» := some (PyVal.str "x") }).type =
      some "integer" ∧
    (buildSchema { type := some "integer", «example» := some (PyVal.str "x") }).«example» =
      some (PyVal.str "x") ∧
    isInstanceOfType (PyVal.str "x") "integer" = false :=
  ⟨rfl, rfl, rfl, rfl⟩

/-- Claim C3 amended: with a declared type that has a type map entry, a
default whose type does not match is rejected (an integer schema with a
float default in particular), but example values are never validated:
changing the example field of any non-reference input does not change
whether construction succeeds. -/
theorem c3_default_checked_example_not :
    (∀ r t d, r.type = some t → r.default = some d →
      hasExpectedType t = true → isInstanceOfType d t = false →
      isOk (constructSchema r) = false) ∧
    (∀ r q, r.type = some "integer" → r.default = some (PyVal.float q) →
      isOk (constructSchema r) = false) ∧
    (∀ (r : RawSchema) (v : Option PyVal), r.dollarRef = Option.none →
      isOk (constructSchema { r with «example» := v }) =
        isOk (constructSchema r)) := by
  refine ⟨fun r t d ht hd he hi => not_ok_of_bad_default r t d ht hd he hi,
    fun r q ht hd => not_ok_of_bad_default r "integer" (PyVal.float q) ht hd rfl rfl,
    fun r v hd => ?_⟩
  apply boolEq_of_iff
  rw [constructSchema_isOk_iff, constructSchema_isOk_iff]
  have e1 : refsOk { r with «example» := v } = true := by simp [refsOk, hd]
  have e2 : refsOk r = true := by simp [refsOk, hd]
  rw [e1, e2]
  exact Iff.rfl

/-- Claim C3 witness: an integer schema with default 5/2 is rejected, a
string schema with an integer default is rejected, and adding a
mismatching example to a plain integer schema leaves it accepted. -/
theorem c3_witness :
    isOk (constructSchema { type := some "integer", default := some (PyVal.float (5/2)) }) = false ∧
    isOk (constructSchema { type := some "string", default := some (PyVal.int 3) }) = false ∧
    isOk (constructSchema { ({ type := some "integer" } : RawSchema) with
      «example» := some (PyVal.str "x") }) =
      isOk (constructSchema { type := some "integer" }) := by
  refine ⟨?_, ?_, ?_⟩
  · exact c3_default_checked_example_not.2.1 _ (5/2) rfl rfl
  · exact c3_default_checked_example_not.1 _ "string" (PyVal.int 3) rfl rfl rfl rfl
  · exact c3_default_checked_example_not.2.2 { type := some "integer" }
      (some (PyVal.str "x")) rfl

theorem objectPropsOk_required {s : Schema} (h : objectPropsOk s = true)
    (hty : s.type = some "object") (hreq : truthy s.required = true)
    (hprop : truthy s.properties = true) :
    ∀ p ∈ s.required.getD [], hasKey (s.properties.getD []) p = true := by
  rw [objectPropsOk, hty] at h
  rw [if_pos (show ((some "object" : Option String) == some "object") = true from rfl)] at h
  obtain ⟨hab, -⟩ := andE h
  obtain ⟨ha, -⟩ := andE hab
  rw [hreq, hprop] at ha
  simp only [Bool.and_self, if_true] at ha
  rw [List.all_eq_true] at ha
  exact ha

/-- Claim C4 counterexample: a base Schema of type object whose required
list names a property while properties is absent is accepted, because
validate_object_properties only compares the two when both are truthy; so
the constructed schema violates required being a subset of the property
keys. -/
theorem c4_counterexample :
    constructSchema { type := some "object", required := some ["x"] } =
      Except.ok (buildSchema { type := some "object", required := some ["x"] }) ∧
    (buildSchema { type := some "object", required := some ["x"] }).type =
      some "object" ∧
    (buildSchema { type := some "object", required := some ["x"] }).required =
      some ["x"] ∧
    (buildSchema { type := some "object", required := some ["x"] }).properties =
      Option.none :=
  ⟨rfl, rfl, rfl, rfl⟩

/-- Claim C4 amended: an ObjectSchema always enforces that required names
exist among the property keys, both on acceptance and rejection; a base
Schema of type object enforces it only when required and properties are
both non-empty, and accepts any required list when properties is absent
or empty. -/
theorem c4_required_subset :
    (∀ r s, constructSchema r = Except.ok s → s.type = some "object" →
      truthy s.required = true → truthy s.properties = true →
      ∀ p ∈ s.required.getD [], hasKey (s.properties.getD []) p = true) ∧
    (∀ r p, r.type = some "object" → truthy r.required = true →
      truthy r.properties = true → p ∈ r.required.getD [] →
      hasKey (r.properties.getD []) p = false →
      isOk (constructSchema r) = false) ∧
    (∀ r o, constructObjectSchema r = Except.ok o →
      ∀ p ∈ o.required, hasKey o.properties p = true) ∧
    (∀ (r : RawSchema) (p : String), p ∈ r.required.getD [] →
      hasKey (r.properties.getD []) p = false →
      isOk (constructObjectSchema r) = false) := by
  refine ⟨?_, ?_, ?_, ?_⟩
  · intro r s hs hty hreq hprop
    obtain ⟨-, -, -, -, -, -, -, h8, -, rfl⟩ :=
      (constructSchema_eq_ok_iff r s).mp hs
    exact objectPropsOk_required h8 hty hreq hprop
  · intro r p hty hreq hprop hmem hkey
    cases hok : isOk (constructSchema r) with
    | false => rfl
    | true =>
      exfalso
      obtain ⟨-, -, -, -, -, -, -, h8, -⟩ := (constructSchema_isOk_iff r).mp hok
      have := objectPropsOk_required h8 (show (buildSchema r).type = some "object" from hty)
        (show truthy (buildSchema r).required = true from hreq)
        (show truthy (buildSchema r).properties = true from hprop)
        p (show p ∈ (buildSchema r).required.getD [] from hmem)
      rw [show hasKey ((buildSchema r).properties.getD []) p =
        hasKey (r.properties.getD []) p from rfl, hkey] at this
      exact Bool.noConfusion this
  · intro r o ho p hp
    obtain ⟨-, -, -, -, h5, -, -, -, -, -, -, -, -, rfl⟩ :=
      (constructObjectSchema_eq_ok_iff r o).mp ho
    rw [requiredFieldOk, List.all_eq_true] at h5
    exact h5 p (by simpa using hp)
  · intro r p hmem hkey
    cases hok : isOk (constructObjectSchema r) with
    | false => rfl
    | true =>
      exfalso
      obtain ⟨o, ho⟩ := (isOk_iff_exists _).mp hok
      obtain ⟨-, -, -, -, h5, -⟩ := (constructObjectSchema_eq_ok_iff r o).mp ho
      rw [requiredFieldOk, List.all_eq_true] at h5
      have := h5 p hmem
      rw [hkey] at this
      exact Bool.noConfusion this

/-- Claim C4 witness: with non-empty properties the base Schema rejects a
missing required name, an ObjectSchema rejects it even with empty
properties, and a constructed ObjectSchema has its required name among
the keys. -/
theorem c4_witness :
    isOk (constructSchema
      { type := some "object", required := some ["x"],
        properties := some [("y", Schema.mk {})] }) = false ∧
    isOk (constructObjectSchema { type := some "object", required := some ["x"] }) = false ∧
    hasKey (buildObjectSchema
      { type := some "object",
        properties := some [("x", Schema.mk {})],
        required := some ["x"] }).properties "x" = true := by
  refine ⟨?_, ?_, ?_⟩
  · exact c4_required_subset.2.1 _ "x" rfl rfl rfl (by simp) (by decide)
  · exact c4_required_subset.2.2.2 _ "x" (by simp) (by decide)
  · exact c4_required_subset.2.2.1
      { type := some "object", properties := some [("x", Schema.mk {})],
        required := some ["x"] } _ (by rfl) "x" (by simp)

set_option maxRecDepth 40000 in
/-- Claim C5: the code never validates property names, although the
specification and the repository test test_property_name_constraints
require rejecting empty names, names containing a dot or a slash, and
names longer than 255 characters; every such ObjectSchema (and base
Schema) construction succeeds. -/
theorem c5_property_names_unvalidated :
    isOk (constructObjectSchema
      { type := some "object",
        properties := some [("invalid.name", Schema.mk { type := some "string" })] }) = true ∧
    isOk (constructObjectSchema
      { type := some "object",
        properties := some [("invalid/name", Schema.mk {})] }) = true ∧
    isOk (constructObjectSchema
      { type := some "object",
        properties := some [("", Schema.mk {})] }) = true ∧
    isOk (constructObjectSchema
      { type := some "object",
        properties := some [(String.mk (List.replicate 256 'a'), Schema.mk {})] }) = true ∧
    (String.mk (List.replicate 256 'a')).length = 256 ∧
    isOk (constructSchema
      { type := some "object",
        properties := some [("invalid.name", Schema.mk {})] }) = true := by decide

theorem strsDistinct_iff_nodup (xs : List PyVal) :
    strsDistinct xs = true ↔ (xs.map pyStr).Nodup := by
  induction xs with
  | nil => simp [strsDistinct]
  | cons x xs ih =>
    constructor
    · intro h
      obtain ⟨h1, h2⟩ := andE h
      rw [List.map_cons, List.nodup_cons]
      refine ⟨fun hmem => ?_, ih.mp h2⟩
      rw [show ((xs.map pyStr).contains (pyStr x)) = true from
        List.elem_iff.mpr hmem] at h1
      exact Bool.noConfusion h1
    · intro h
      rw [List.map_cons, List.nodup_cons] at h
      rw [strsDistinct, ih.mpr h.2]
      rw [show ((xs.map pyStr).contains (pyStr x)) = false from ?_]
      · rfl
      · cases hcc : (xs.map pyStr).contains (pyStr x) with
        | false => rfl
        | true => exact absurd (List.elem_iff.mp hcc) h.1

theorem arrayValueOk_spec {s : ArraySchema} {xs : List PyVal}
    (h : arrayValueOk s xs = true) : arrayValueSpec s xs := by
  rw [arrayValueOk] at h
  obtain ⟨habc, hd⟩ := andE h
  obtain ⟨hab, hc⟩ := andE habc
  obtain ⟨ha, hb⟩ := andE hab
  refine ⟨?_, ?_, ?_, ?_, ?_⟩
  · intro m hm
    rw [hm] at ha
    simpa using ha
  · intro m hm
    rw [hm] at hb
    simpa using hb
  · intro hu
    rw [hu] at hc
    simp only [eq_self_iff_true, if_true] at hc
    exact (strsDistinct_iff_nodup xs).mp hc
  · intro sch hsch
    rw [hsch] at hd
    rw [List.all_eq_true] at hd
    exact hd
  · intro schs hschs
    rw [hschs] at hd
    obtain ⟨hlen, hzip⟩ := andE hd
    constructor
    · intro haf
      by_contra hgt
      rw [if_pos (by simp [haf]; omega)] at hlen
      exact Bool.noConfusion hlen
    · rw [List.all_eq_true] at hzip
      exact hzip

theorem arrayAfterOk_values {s : ArraySchema} (h : arrayAfterOk s = true) :
    (∀ d, s.default = some d → ∃ xs, d = PyVal.list xs ∧ arrayValueOk s xs = true) ∧
    (∀ exs, s.examples = some exs →
      ∀ e ∈ exs, ∃ xs, e = PyVal.list xs ∧ arrayValueOk s xs = true) := by
  rw [arrayAfterOk] at h
  obtain ⟨habc, hex⟩ := andE h
  constructor
  · intro d hd
    have hdef2 := (andE habc).2
    rw [hd] at hdef2
    cases d with
    | list xs => exact ⟨xs, rfl, hdef2⟩
    | none => exact absurd hdef2 (by simp)
    | bool b => exact absurd hdef2 (by simp)
    | int n => exact absurd hdef2 (by simp)
    | float q => exact absurd hdef2 (by simp)
    | str t => exact absurd hdef2 (by simp)
  · intro exs hexs e he
    rw [hexs] at hex
    rw [List.all_eq_true] at hex
    have h2 := hex e he
    cases e with
    | list xs => exact ⟨xs, rfl, h2⟩
    | none => exact absurd h2 (by simp)
    | bool b => exact absurd h2 (by simp)
    | int n => exact absurd h2 (by simp)
    | float q => exact absurd h2 (by simp)
    | str t => exact absurd h2 (by simp)

/-- Claim C6 counterexample: with uniqueItems true, a default of True and
1 (equal Python values, since True == 1) passes construction, because
validate_schema deduplicates by str, whose values True and 1 differ; so
succeeding does not imply pairwise distinct elements. -/
theorem c6_counterexample :
    constructArraySchema
      { items := some (ItemsU.single (Schema.mk { type := some "integer" })),
        uniqueItems := some true,
        default := some (PyVal.list [PyVal.bool true, PyVal.int 1]) } =
      Except.ok (buildArraySchema
        { items := some (ItemsU.single (Schema.mk { type := some "integer" })),
          uniqueItems := some true,
          default := some (PyVal.list [PyVal.bool true, PyVal.int 1]) }
        (ItemsU.single (Schema.mk { type := some "integer" }))) ∧
    (buildArraySchema
      { items := some (ItemsU.single (Schema.mk { type := some "integer" })),
        uniqueItems := some true,
        default := some (PyVal.list [PyVal.bool true, PyVal.int 1]) }
      (ItemsU.single (Schema.mk { type := some "integer" }))).uniqueItems = true ∧
    (buildArraySchema
      { items := some (ItemsU.single (Schema.mk { type := some "integer" })),
        uniqueItems := some true,
        default := some (PyVal.list [PyVal.bool true, PyVal.int 1]) }
      (ItemsU.single (Schema.mk { type := some "integer" }))).default =
      some (PyVal.list [PyVal.bool true, PyVal.int 1]) ∧
    pyEq (PyVal.bool true) (PyVal.int 1) = true :=
  ⟨rfl, rfl, rfl, rfl⟩

/-- Claim C6 amended: when ArraySchema construction succeeds, the default
is a list within the item count bounds, with pairwise distinct string
representations (not distinct values) when uniqueItems is true, whose
elements match the item schema type, positionally under tuple validation
and capped in length when additionalItems is False; and the same holds
for each entry of examples. -/
theorem c6_default_examples_constrained :
    ∀ a s, constructArraySchema a = Except.ok s →
      (∀ d, s.default = some d → ∃ xs, d = PyVal.list xs ∧ arrayValueSpec s xs) ∧
      (∀ exs, s.examples = some exs →
        ∀ e ∈ exs, ∃ xs, e = PyVal.list xs ∧ arrayValueSpec s xs) := by
  intro a s hs
  obtain ⟨-, -, -, -, -, -, it, -, -, -, -, -, -, -, -, h15, rfl⟩ :=
    (constructArraySchema_eq_ok_iff a s).mp hs
  have hv := arrayAfterOk_values h15
  constructor
  · intro d hd
    obtain ⟨xs, hxs, hok⟩ := hv.1 d hd
    exact ⟨xs, hxs, arrayValueOk_spec hok⟩
  · intro exs hexs e he
    obtain ⟨xs, hxs, hok⟩ := hv.2 exs hexs e he
    exact ⟨xs, hxs, arrayValueOk_spec hok⟩

/-- Claim C6 witness: on a constructed schema with minItems 1, maxItems
3, uniqueItems and an integer item schema, the default [True, 1]
satisfies every amended condition. -/
theorem c6_witness :
    ∃ xs, (PyVal.list [PyVal.bool true, PyVal.int 1]) = PyVal.list xs ∧
      arrayValueSpec (buildArraySchema
        { items := some (ItemsU.single (Schema.mk { type := some "integer" })),
          minItems := some 1, maxItems := some 3, uniqueItems := some true,
          default := some (PyVal.list [PyVal.bool true, PyVal.int 1]) }
        (ItemsU.single (Schema.mk { type := some "integer" }))) xs :=
  (c6_default_examples_constrained
    { items := some (ItemsU.single (Schema.mk { type := some "integer" })),
      minItems := some 1, maxItems := some 3, uniqueItems := some true,
      default := some (PyVal.list [PyVal.bool true, PyVal.int 1]) }
    (buildArraySchema
      { items := some (ItemsU.single (Schema.mk { type := some "integer" })),
        minItems := some 1, maxItems := some 3, uniqueItems := some true,
        default := some (PyVal.list [PyVal.bool true, PyVal.int 1]) }
      (ItemsU.single (Schema.mk { type := some "integer" })))
    (by rfl)).1 (PyVal.list [PyVal.bool true, PyVal.int 1]) rfl

end MockingJ
